import Mathlib

/-!
Shallow embedding of the WiSafe2-to-HomeAssistant bridge coordinator
(custom_components/wisafe2/coordinator.py, const.py, binary_sensor.py).

Timestamps are modelled as natural numbers (seconds).  `datetime.now()`
becomes an explicit `now : Nat` parameter threaded through each operation.
Python's truthiness on strings (`None` and `""` are falsy) is modelled by
`pyOrS` / `truthyS`.  Inbound JSON objects are modelled by the `Msg`
structure: a field holds `some v` when the corresponding key is present
(with a string value) and `none` when it is absent.  Events fired on the
host event bus (`hass.bus.async_fire`) are collected in a returned list.
-/

namespace WiSafe2

/-- Python `a or b` on optional strings: `None` and `""` are falsy. -/
def pyOrS (a b : Option String) : Option String :=
  match a with
  | some s => if s = "" then b else some s
  | none => b

/-- Python truthiness of an optional string value. -/
def truthyS : Option String → Bool
  | some s => s ≠ ""
  | none => false

/-- Check that `pat` is a prefix of `s` (character lists). -/
def charPrefix : List Char → List Char → Bool
  | [], _ => true
  | _ :: _, [] => false
  | a :: as, b :: bs => a == b && charPrefix as bs

/-- Python `pat in s` on character lists: `pat` occurs contiguously in `s`. -/
def charContains : List Char → List Char → Bool
  | pat, [] => pat.isEmpty
  | pat, b :: bs => charPrefix pat (b :: bs) || charContains pat bs

/-- Python `pat in s` for strings. -/
def strContains (s pat : String) : Bool :=
  charContains pat.toList s.toList

/-- Python line.startswith of a one-string pattern, on the underlying
character list. -/
def strStartsWith (line pat : String) : Bool :=
  charPrefix pat.toList line.toList

/-- ASCII lower-casing of one character (the status strings compared by
the sensors are ASCII, so this matches Python str.lower on them). -/
def charLower (c : Char) : Char :=
  if 'A' ≤ c ∧ c ≤ 'Z' then Char.ofNat (c.toNat + 32) else c

/-- Python str.lower on ASCII strings. -/
def strLower (s : String) : String :=
  String.mk (s.toList.map charLower)

/-- UTF-8 encoding of one character, as a list of byte values. -/
def utf8EncodeCharNat (c : Char) : List Nat :=
  let n := c.toNat
  if n < 0x80 then [n]
  else if n < 0x800 then
    [0xC0 ||| (n >>> 6), 0x80 ||| (n &&& 0x3F)]
  else if n < 0x10000 then
    [0xE0 ||| (n >>> 12), 0x80 ||| ((n >>> 6) &&& 0x3F), 0x80 ||| (n &&& 0x3F)]
  else
    [0xF0 ||| (n >>> 18), 0x80 ||| ((n >>> 12) &&& 0x3F),
     0x80 ||| ((n >>> 6) &&& 0x3F), 0x80 ||| (n &&& 0x3F)]

/-- Python str.encode with encoding utf-8: the byte sequence written to
the serial transport. -/
def strUtf8 (s : String) : List Nat :=
  (s.toList.map utf8EncodeCharNat).flatten

/-- Heartbeat timeout constant from const.py (seconds). -/
def HEARTBEAT_TIMEOUT : Nat := 35

/-- CO test command code from const.py. -/
def CMD_TEST_CO : String := "1~"

/-- Bridge device type constant from const.py. -/
def DEVICE_TYPE_BRIDGE : String := "bridge"

/-- Model table entry: display name, device category, description. -/
structure ModelInfo where
  name : String
  device_type : String
  description : String
deriving DecidableEq, Repr

/-- Static model table DEVICE_MODELS from const.py. -/
def DEVICE_MODELS : List (String × ModelInfo) :=
  [ ("E702", ⟨"WSM-1", "smoke", "AC smoke alarm"⟩)
  , ("1103", ⟨"WST-630", "combined", "Smoke/Strobe Unit"⟩)
  , ("7803", ⟨"W2-CO-10X #1", "co", "Carbon monoxide alarm"⟩)
  , ("8B03", ⟨"W2-SVP-630 #1", "strobe", "Strobe/visual alarm"⟩)
  , ("A203", ⟨"W2-LFS-630", "siren", "Low frequency sounder"⟩)
  , ("FE03", ⟨"IFG-100", "unknown", "IFG device"⟩)
  , ("1104", ⟨"WHT-630", "heat", "Heat alarm"⟩)
  , ("1404", ⟨"WHM-1", "heat", "AC heat alarm"⟩)
  , ("1C04", ⟨"IFG-200", "unknown", "IFG device"⟩)
  , ("4504", ⟨"W2-TSL", "unknown", "TSL device"⟩)
  , ("7C04", ⟨"ST-630-DE", "smoke", "Smoke alarm"⟩)
  , ("8504", ⟨"WETA-10X", "water", "Water/leak alarm"⟩)
  , ("C304", ⟨"W2-SVP-630 #2", "strobe", "Strobe/visual alarm"⟩)
  , ("0301", ⟨"W2-CO-10X #2", "co", "Carbon Monoxide Alarm"⟩)
  , ("0401", ⟨"FP2620W2", "smoke", "Smoke Alarm"⟩)
  , ("0501", ⟨"FP1720W2", "heat", "Heat Alarm"⟩)
  , ("0601", ⟨"W2-SVP-630 #3", "strobe", "Strobe Unit"⟩) ]

/-- Inbound JSON message, restricted to the keys the coordinator reads.
Each optional field is `some v` when the key is present with string value
`v`, `none` when absent.  `heartbeatKey` records whether a key named
"heartbeat" is present at all (the dispatcher only tests membership). -/
structure Msg where
  deviceId : Option String := none
  device_id : Option String := none
  modelId : Option String := none
  model_id : Option String := none
  type_ : Option String := none
  message_type : Option String := none
  battery : Option String := none
  base : Option String := none
  event : Option String := none
  test_result : Option String := none
  result : Option String := none
  event_type : Option String := none
  heartbeatKey : Bool := false
deriving DecidableEq, Repr

/-- Mutable per-device record (class WiSafe2Device). -/
structure Device where
  device_id : String
  model_id : Option String
  name : Option String
  location : Option String
  device_type : Option String
  last_seen : Option Nat
  battery_status : String
  base_status : String
  last_event : Option String
  last_test_result : Option String
  is_online : Bool
deriving DecidableEq, Repr

/-- WiSafe2Device.__init__: defaults, then model-table resolution when a
truthy model_id is known to DEVICE_MODELS. -/
def Device.init (device_id : String) (model_id : Option String) : Device :=
  let d : Device :=
    { device_id := device_id
    , model_id := model_id
    , name := none
    , location := none
    , device_type := none
    , last_seen := none
    , battery_status := "unknown"
    , base_status := "unknown"
    , last_event := none
    , last_test_result := none
    , is_online := true }
  match model_id with
  | some m =>
    if m ≠ "" then
      match DEVICE_MODELS.lookup m with
      | some info => { d with name := some info.name, device_type := some info.device_type }
      | none => d
    else d
  | none => d

/-- WiSafe2Device.update_from_message: stamp last_seen, then copy the
battery/base/event/test_result keys when present. -/
def Device.update_from_message (d : Device) (now : Nat) (data : Msg) : Device :=
  let d := { d with last_seen := some now }
  let d := match data.battery with
    | some b => { d with battery_status := b }
    | none => d
  let d := match data.base with
    | some b => { d with base_status := b }
    | none => d
  let d := match data.event with
    | some e => { d with last_event := some e }
    | none => d
  match data.test_result with
  | some t => { d with last_test_result := some t }
  | none => d

/-- Events fired on the host event bus by the coordinator. -/
inductive Fired where
  | emergency (device_id : String) (event_type : String)
      (device_name : Option String) (location : Option String)
  | deviceMissing (device_id : String) (device_name : Option String)
deriving DecidableEq, Repr

/-- Coordinator state (the mutable attributes of WiSafe2Coordinator that
the message path, the poll and the command sender touch).  The last
parsed message is kept as a `Msg` rather than its json.dumps string. -/
structure CoordState where
  devices : List (String × Device)
  bridge_online : Bool
  last_heartbeat : Option Nat
  bridge_device : Device
  last_message : Option Msg
  serialPresent : Bool
  running : Bool
deriving DecidableEq, Repr

/-- WiSafe2Coordinator.__init__: empty device map, bridge offline, no
heartbeat, a bridge pseudo-device named "WiSafe2 Bridge". -/
def initState : CoordState :=
  { devices := []
  , bridge_online := false
  , last_heartbeat := none
  , bridge_device :=
      { Device.init "bridge" none with
          name := some "WiSafe2 Bridge"
        , device_type := some DEVICE_TYPE_BRIDGE }
  , last_message := none
  , serialPresent := false
  , running := false }

/-- Property WiSafe2Coordinator.bridge_online at query time `now`.
Elapsed time is `now - h` (the query never precedes the heartbeat in the
real system; with truncated subtraction an earlier query also compares
below the timeout, exactly as a negative elapsed float would in Python). -/
def bridgeOnlinePure (s : CoordState) (now : Nat) : Bool :=
  match s.last_heartbeat with
  | none => false
  | some h => now - h < HEARTBEAT_TIMEOUT

/-- Python dict assignment on the insertion-ordered device map. -/
def insertDev : List (String × Device) → String → Device → List (String × Device)
  | [], id, d => [(id, d)]
  | (k, v) :: rest, id, d =>
    if k = id then (k, d) :: rest else (k, v) :: insertDev rest id d

/-- WiSafe2Coordinator._handle_device_event: dispatch on the message-type
tag, mutating the device and firing bus events. -/
def handle_device_event (device : Device) (msg_type : String) (data : Msg) :
    Device × List Fired :=
  if msg_type = "test" then
    let result := data.result.getD "unknown"
    let event_type := data.event_type.getD "unknown"
    ({ device with last_test_result := some (event_type ++ ": " ++ result) }, [])
  else if msg_type = "emergency" then
    let event_type := data.event_type.getD "unknown"
    ({ device with last_event := some ("EMERGENCY: " ++ event_type) },
     [Fired.emergency device.device_id event_type device.name device.location])
  else if msg_type = "status" then
    ({ device with
        battery_status := data.battery.getD "unknown"
      , base_status := data.base.getD "unknown" }, [])
  else if msg_type = "missing" then
    ({ device with is_online := false },
     [Fired.deviceMissing device.device_id device.name])
  else (device, [])

/-- Heartbeat part of WiSafe2Coordinator._handle_json_message: on
`data.get("type") == "heartbeat" or "heartbeat" in data`, stamp the
heartbeat time, raise the cached online flag and refresh the bridge
pseudo-device. -/
def applyHeartbeat (s : CoordState) (now : Nat) (data : Msg) : CoordState :=
  if data.type_ == some "heartbeat" || data.heartbeatKey then
    { s with
        last_heartbeat := some now
      , bridge_online := true
      , bridge_device :=
          { s.bridge_device with last_seen := some now, is_online := true } }
  else s

/-- Device part of WiSafe2Coordinator._handle_json_message for a truthy
device identifier `id`: resolve-or-create the device, apply the generic
field updates, then dispatch on the truthy message-type tag. -/
def deviceAfter (devices : List (String × Device)) (now : Nat) (data : Msg)
    (id : String) : Device × List Fired :=
  let dev0 :=
    match devices.lookup id with
    | some d => d
    | none => Device.init id (pyOrS data.modelId data.model_id)
  let dev1 := dev0.update_from_message now data
  match pyOrS data.type_ data.message_type with
  | some t =>
    if t = "" then (dev1, ([] : List Fired))
    else handle_device_event dev1 t data
  | none => (dev1, [])

/-- WiSafe2Coordinator._handle_json_message: record the message, handle a
heartbeat, then upsert the carried device and dispatch its event type. -/
def handle_json_message (s : CoordState) (now : Nat) (data : Msg) :
    CoordState × List Fired :=
  let s1 := applyHeartbeat { s with last_message := some data } now data
  match pyOrS data.deviceId data.device_id with
  | some id =>
    if id = "" then (s1, [])
    else
      let r := deviceAfter s1.devices now data id
      ({ s1 with devices := insertDev s1.devices id r.1 }, r.2)
  | none => (s1, [])

/-- WiSafe2Coordinator._process_line: a line that starts with a brace is
handed to the JSON parser; a successful parse goes to the message handler,
a parse failure is logged and discarded (the JSONDecodeError is caught at
this boundary), and any other line is logged and discarded.  The external
json.loads is an arbitrary parse function. -/
def process_line (s : CoordState) (now : Nat) (line : String)
    (parse : String → Except Unit Msg) : CoordState × List Fired :=
  if strStartsWith line "\x7b" then
    match parse line with
    | Except.ok data => handle_json_message s now data
    | Except.error _ => (s, [])
  else (s, [])

/-- WiSafe2Coordinator._async_update_data (the periodic 5-second poll):
when the pure liveness predicate has gone false while the cached flag is
still true, drop the cached flag and mark the bridge pseudo-device
offline; otherwise leave the state untouched. -/
def async_update_data (s : CoordState) (now : Nat) : CoordState :=
  if !bridgeOnlinePure s now && s.bridge_online then
    { s with
        bridge_online := false
      , bridge_device := { s.bridge_device with is_online := false } }
  else s

/-- WiSafe2Coordinator.async_send_command: fail fast when the serial
handle is absent or the coordinator is not running; otherwise write the
UTF-8 encoding of the command.  `writeOk` models whether the external
serial write succeeds; on failure the exception is caught and `false`
returned.  The second component is the byte payload handed to the
transport on success. -/
def async_send_command (s : CoordState) (writeOk : Bool) (command : String) :
    Bool × Option (List Nat) :=
  if !s.serialPresent || !s.running then (false, none)
  else if writeOk then (true, some (strUtf8 command))
  else (false, none)

/-- WiSafe2Coordinator.async_start on success: a serial handle exists and
the reader is running (the failure path leaves the state unchanged). -/
def startOk (s : CoordState) : CoordState :=
  { s with serialPresent := true, running := true }

/-- WiSafe2Coordinator.add_device: manual registration; creates the device
when unseen, otherwise overrides name/location/model_id when truthy. -/
def add_device (s : CoordState) (device_id : String) (model_id : Option String)
    (name : Option String) (location : Option String) : CoordState :=
  match s.devices.lookup device_id with
  | none =>
    let device := { Device.init device_id model_id with name := name, location := location }
    { s with devices := insertDev s.devices device_id device }
  | some device =>
    let device := if truthyS name then { device with name := name } else device
    let device := if truthyS location then { device with location := location } else device
    let device := if truthyS model_id then { device with model_id := model_id } else device
    { s with devices := insertDev s.devices device_id device }

/-- WiSafe2DeviceProblemSensor.is_on from binary_sensor.py: low battery,
or off base, or a test result containing "fail" (case-insensitive). -/
def problemOn (d : Device) : Bool :=
  let battery_low := strLower d.battery_status == "low"
  let off_base :=
    strLower d.base_status == "removed" || strLower d.base_status == "off_base"
  let test_failed :=
    match d.last_test_result with
    | some r => strContains (strLower r) "fail"
    | none => false
  battery_low || off_base || test_failed

/-- Lookup helper: online flag of a device in the coordinator map. -/
def devOnline (s : CoordState) (id : String) : Option Bool :=
  (s.devices.lookup id).map Device.is_online

/-- Lookup helper: last_event of a device in the coordinator map. -/
def devLastEvent (s : CoordState) (id : String) : Option (Option String) :=
  (s.devices.lookup id).map Device.last_event

/-- Lookup helper: name of a device in the coordinator map. -/
def devName (s : CoordState) (id : String) : Option (Option String) :=
  (s.devices.lookup id).map Device.name

/-- Lookup helper: location of a device in the coordinator map. -/
def devLocation (s : CoordState) (id : String) : Option (Option String) :=
  (s.devices.lookup id).map Device.location

/-- Effective dispatch tag of a message: the truthy value of
`data.get("type") or data.get("message_type")`, when there is one. -/
def effMsgType (m : Msg) : Option String :=
  match pyOrS m.type_ m.message_type with
  | some t => if t = "" then none else some t
  | none => none

/-- JSON object with exactly a device_id key and type "missing". -/
def missingMsgFor (id : String) : Msg :=
  { device_id := some id, type_ := some "missing" }

/-- One step of the coordinator's event loop, paired with the current
clock: a serial line is processed (at a later or equal time), the
periodic poll runs, a device is registered manually, or the connection
is started or stopped.  The clock never moves backwards. -/
inductive Step : CoordState × Nat → CoordState × Nat → Prop where
  | line (s : CoordState) (now now' : Nat) (l : String)
      (parse : String → Except Unit Msg) (h : now ≤ now') :
      Step (s, now) ((process_line s now' l parse).1, now')
  | poll (s : CoordState) (now now' : Nat) (h : now ≤ now') :
      Step (s, now) (async_update_data s now', now')
  | register (s : CoordState) (now : Nat) (id : String) (mid nm loc : Option String) :
      Step (s, now) (add_device s id mid nm loc, now)
  | start (s : CoordState) (now : Nat) :
      Step (s, now) (startOk s, now)
  | stop (s : CoordState) (now : Nat) :
      Step (s, now) ({ s with serialPresent := false, running := false }, now)

/-- States reachable from a freshly constructed coordinator at time 0. -/
def Reachable (p : CoordState × Nat) : Prop :=
  Relation.ReflTransGen Step (initState, 0) p

/-- The concrete status message of the C6 scenario. -/
def msgC6 : Msg :=
  { device_id := some "D1", model_id := some "1103", type_ := some "status"
  , battery := some "low", base := some "removed" }

/-- Device record produced by processing `msgC6` at time `now` from a
state that does not know device D1. -/
def devC6 (now : Nat) : Device :=
  { device_id := "D1", model_id := some "1103", name := some "WST-630"
  , location := none, device_type := some "combined", last_seen := some now
  , battery_status := "low", base_status := "removed", last_event := none
  , last_test_result := none, is_online := true }

/-- JSON object with a device_id key, type "status" and a healthy battery. -/
def msgStatusOkFor (id : String) : Msg :=
  { device_id := some id, type_ := some "status", battery := some "ok" }

/-- JSON object for an emergency of the given event type. -/
def msgEmergencyFor (id etype : String) : Msg :=
  { device_id := some id, type_ := some "emergency", event_type := some etype }

/- Helper lemmas about the embedded operations. -/

theorem applyHeartbeat_devices (s : CoordState) (now : Nat) (m : Msg) :
    (applyHeartbeat s now m).devices = s.devices := by
  unfold applyHeartbeat; split <;> rfl

theorem applyHeartbeat_serial (s : CoordState) (now : Nat) (m : Msg) :
    (applyHeartbeat s now m).serialPresent = s.serialPresent ∧
    (applyHeartbeat s now m).running = s.running := by
  unfold applyHeartbeat; split <;> exact ⟨rfl, rfl⟩

theorem insertDev_lookup_self (l : List (String × Device)) (id : String) (d : Device) :
    (insertDev l id d).lookup id = some d := by
  induction l with
  | nil => simp [insertDev, List.lookup]
  | cons p t ih =>
    obtain ⟨k, v⟩ := p
    by_cases h : k = id
    · simp [insertDev, h, List.lookup]
    · simp only [insertDev, if_neg h, List.lookup]
      have : (id == k) = false := by
        simp [beq_iff_eq]; exact fun hh => h hh.symm
      simp [this, ih]

theorem insertDev_lookup_ne (l : List (String × Device)) (id k : String) (d : Device)
    (h : k ≠ id) : (insertDev l id d).lookup k = l.lookup k := by
  induction l with
  | nil =>
    simp only [insertDev, List.lookup]
    have : (k == id) = false := by simp [beq_iff_eq, h]
    simp [this]
  | cons p t ih =>
    obtain ⟨k', v⟩ := p
    by_cases h' : k' = id
    · subst h'
      have : (k == k') = false := by simp [beq_iff_eq, h]
      simp [insertDev, List.lookup, this]
    · simp only [insertDev, if_neg h', List.lookup]
      by_cases hk : k = k'
      · subst hk; simp
      · have : (k == k') = false := by simp [beq_iff_eq, hk]
        simp [this, ih]

theorem update_from_message_fields (d : Device) (now : Nat) (m : Msg) :
    (d.update_from_message now m).is_online = d.is_online ∧
    (d.update_from_message now m).device_id = d.device_id ∧
    (d.update_from_message now m).name = d.name ∧
    (d.update_from_message now m).location = d.location := by
  unfold Device.update_from_message
  cases m.battery <;> cases m.base <;> cases m.event <;> cases m.test_result <;>
    exact ⟨rfl, rfl, rfl, rfl⟩

theorem handle_device_event_is_online (d : Device) (t : String) (m : Msg) :
    (handle_device_event d t m).1.is_online =
      (if t = "missing" then false else d.is_online) := by
  unfold handle_device_event
  split_ifs <;> simp_all

theorem handle_device_event_id_name_loc (d : Device) (t : String) (m : Msg) :
    (handle_device_event d t m).1.device_id = d.device_id ∧
    (handle_device_event d t m).1.name = d.name ∧
    (handle_device_event d t m).1.location = d.location := by
  unfold handle_device_event
  split_ifs <;> exact ⟨rfl, rfl, rfl⟩

theorem handle_device_event_emergency (d : Device) (m : Msg) :
    handle_device_event d "emergency" m =
      ({ d with last_event := some ("EMERGENCY: " ++ m.event_type.getD "unknown") },
       [Fired.emergency d.device_id (m.event_type.getD "unknown") d.name d.location]) := by
  rfl

theorem handle_device_event_missing (d : Device) (m : Msg) :
    handle_device_event d "missing" m =
      ({ d with is_online := false },
       [Fired.deviceMissing d.device_id d.name]) := by
  rfl

theorem Device.init_is_online (id : String) (mid : Option String) :
    (Device.init id mid).is_online = true := by
  unfold Device.init
  cases mid with
  | none => rfl
  | some v =>
    by_cases h : v = "" <;> simp only [h]
    · simp
    · simp only [if_neg, ne_eq, h, not_false_iff, if_true]
      cases DEVICE_MODELS.lookup v <;> rfl

theorem Device.init_device_id (id : String) (mid : Option String) :
    (Device.init id mid).device_id = id := by
  unfold Device.init
  cases mid with
  | none => rfl
  | some v =>
    by_cases h : v = "" <;> simp only [h]
    · simp
    · simp only [if_neg, ne_eq, h, not_false_iff, if_true]
      cases DEVICE_MODELS.lookup v <;> rfl

theorem Device.init_defaults (id : String) (mid : Option String) :
    (Device.init id mid).is_online = true ∧
    (Device.init id mid).battery_status = "unknown" ∧
    (Device.init id mid).base_status = "unknown" ∧
    (Device.init id mid).last_event = none ∧
    (Device.init id mid).last_test_result = none := by
  unfold Device.init
  cases mid with
  | none => exact ⟨rfl, rfl, rfl, rfl, rfl⟩
  | some v =>
    by_cases h : v = ""
    · simp [h]
    · simp only [if_neg, ne_eq, h, not_false_iff, if_true]
      cases DEVICE_MODELS.lookup v <;> exact ⟨rfl, rfl, rfl, rfl, rfl⟩

theorem effMsgType_some_iff (m : Msg) (t : String) :
    effMsgType m = some t ↔ pyOrS m.type_ m.message_type = some t ∧ t ≠ "" := by
  unfold effMsgType
  cases h : pyOrS m.type_ m.message_type with
  | none => simp
  | some u =>
    by_cases hu : u = ""
    · subst hu
      simp only [if_pos rfl]
      constructor
      · intro hc; cases hc
      · rintro ⟨h1, h2⟩; cases h1; exact absurd rfl h2
    · simp only [if_neg hu]
      constructor
      · intro hc; cases hc; exact ⟨rfl, hu⟩
      · rintro ⟨h1, _⟩; cases h1; rfl

theorem deviceAfter_snd_of_eff (devs : List (String × Device)) (now : Nat)
    (m : Msg) (id t : String) (ht : effMsgType m = some t) :
    deviceAfter devs now m id =
      handle_device_event
        ((match devs.lookup id with
          | some d => d
          | none => Device.init id (pyOrS m.modelId m.model_id)).update_from_message now m)
        t m := by
  obtain ⟨h1, h2⟩ := (effMsgType_some_iff m t).mp ht
  unfold deviceAfter
  rw [h1]
  simp [h2]

theorem deviceAfter_no_eff (devs : List (String × Device)) (now : Nat)
    (m : Msg) (id : String) (ht : effMsgType m = none) :
    deviceAfter devs now m id =
      ((match devs.lookup id with
        | some d => d
        | none => Device.init id (pyOrS m.modelId m.model_id)).update_from_message now m,
       []) := by
  unfold deviceAfter
  unfold effMsgType at ht
  cases h : pyOrS m.type_ m.message_type with
  | none => rfl
  | some u =>
    by_cases hu : u = ""
    · simp [hu]
    · exfalso; rw [h] at ht; simp [hu] at ht

theorem deviceAfter_is_online (devs : List (String × Device)) (now : Nat)
    (m : Msg) (id : String) :
    (deviceAfter devs now m id).1.is_online =
      (if effMsgType m = some "missing" then false
       else match devs.lookup id with
            | some d => d.is_online
            | none => true) := by
  cases ht : effMsgType m with
  | none =>
    rw [deviceAfter_no_eff devs now m id ht]
    cases hd : devs.lookup id with
    | some d => simp [hd, (update_from_message_fields d now m).1]
    | none =>
      simp [hd, (update_from_message_fields _ now m).1, Device.init_is_online]
  | some t =>
    rw [deviceAfter_snd_of_eff devs now m id t ht]
    rw [handle_device_event_is_online]
    by_cases hmiss : t = "missing"
    · subst hmiss; simp
    · have hne2 : (some t : Option String) ≠ some "missing" := by
        intro hc; cases hc; exact hmiss rfl
      rw [if_neg hmiss, if_neg hne2]
      cases hd : devs.lookup id with
      | some d => simp [(update_from_message_fields d now m).1]
      | none =>
        simp [(update_from_message_fields _ now m).1, Device.init_is_online]

theorem deviceAfter_device_id (devs : List (String × Device)) (now : Nat)
    (m : Msg) (id : String) :
    (deviceAfter devs now m id).1.device_id =
      (match devs.lookup id with
       | some d => d.device_id
       | none => id) := by
  have step : ∀ d : Device,
      (d.update_from_message now m).device_id = d.device_id :=
    fun d => (update_from_message_fields d now m).2.1
  cases ht : effMsgType m with
  | none =>
    rw [deviceAfter_no_eff devs now m id ht]
    cases hd : devs.lookup id with
    | some d => simp [step]
    | none => simp [step, Device.init_device_id]
  | some t =>
    rw [deviceAfter_snd_of_eff devs now m id t ht]
    have := handle_device_event_id_name_loc
      ((match devs.lookup id with
        | some d => d
        | none => Device.init id (pyOrS m.modelId m.model_id)).update_from_message now m) t m
    rw [this.1]
    cases hd : devs.lookup id with
    | some d => simp [step]
    | none => simp [step, Device.init_device_id]

theorem handle_json_message_devices (s : CoordState) (now : Nat) (m : Msg)
    (id : String) (hid : pyOrS m.deviceId m.device_id = some id) (hne : id ≠ "") :
    (handle_json_message s now m).1.devices =
      insertDev s.devices id (deviceAfter s.devices now m id).1 ∧
    (handle_json_message s now m).2 = (deviceAfter s.devices now m id).2 := by
  unfold handle_json_message
  rw [hid]
  simp only [if_neg hne, applyHeartbeat_devices]
  exact ⟨trivial, trivial⟩

theorem handle_json_message_devices_untouched (s : CoordState) (now : Nat) (m : Msg)
    (h : pyOrS m.deviceId m.device_id = none ∨ pyOrS m.deviceId m.device_id = some "") :
    (handle_json_message s now m).1.devices = s.devices ∧
    (handle_json_message s now m).2 = [] := by
  unfold handle_json_message
  cases h with
  | inl h => rw [h]; exact ⟨applyHeartbeat_devices _ now m, rfl⟩
  | inr h => rw [h]; simp [applyHeartbeat_devices]

theorem handle_devOnline (s : CoordState) (now : Nat) (m : Msg) (id : String)
    (hid : pyOrS m.deviceId m.device_id = some id) (hne : id ≠ "") :
    devOnline (handle_json_message s now m).1 id =
      some (if effMsgType m = some "missing" then false
            else match s.devices.lookup id with
                 | some d => d.is_online
                 | none => true) := by
  unfold devOnline
  rw [(handle_json_message_devices s now m id hid hne).1]
  rw [insertDev_lookup_self]
  rw [Option.map_some']
  rw [deviceAfter_is_online]

theorem handle_devOnline_ne (s : CoordState) (now : Nat) (m : Msg) (id k : String)
    (hid : pyOrS m.deviceId m.device_id = some id) (hne : id ≠ "") (hk : k ≠ id) :
    devOnline (handle_json_message s now m).1 k = devOnline s k := by
  unfold devOnline
  rw [(handle_json_message_devices s now m id hid hne).1]
  rw [insertDev_lookup_ne _ _ _ _ hk]

theorem poll_preserves_devices (s : CoordState) (now : Nat) :
    (async_update_data s now).devices = s.devices := by
  unfold async_update_data; split <;> rfl

theorem poll_preserves_devOnline (s : CoordState) (now : Nat) (id : String) :
    devOnline (async_update_data s now) id = devOnline s id := by
  unfold devOnline
  rw [poll_preserves_devices]

theorem poll_preserves_lh (s : CoordState) (now : Nat) :
    (async_update_data s now).last_heartbeat = s.last_heartbeat := by
  unfold async_update_data; split <;> rfl

theorem handle_json_message_state (s : CoordState) (now : Nat) (m : Msg) :
    ∃ devs, (handle_json_message s now m).1 =
      { applyHeartbeat { s with last_message := some m } now m with devices := devs } := by
  unfold handle_json_message
  cases hid : pyOrS m.deviceId m.device_id with
  | none => exact ⟨_, rfl⟩
  | some id =>
    by_cases hne : id = ""
    · subst hne; simp only [if_pos rfl]; exact ⟨_, rfl⟩
    · simp only [if_neg hne]; exact ⟨_, rfl⟩

theorem applyHeartbeat_hb_true (s : CoordState) (now : Nat) (m : Msg)
    (h : (m.type_ == some "heartbeat" || m.heartbeatKey) = true) :
    (applyHeartbeat s now m).last_heartbeat = some now ∧
    (applyHeartbeat s now m).bridge_online = true := by
  simp [applyHeartbeat, h]

theorem applyHeartbeat_hb_false (s : CoordState) (now : Nat) (m : Msg)
    (h : (m.type_ == some "heartbeat" || m.heartbeatKey) = false) :
    (applyHeartbeat s now m).last_heartbeat = s.last_heartbeat ∧
    (applyHeartbeat s now m).bridge_online = s.bridge_online := by
  simp [applyHeartbeat, h]

theorem add_device_bridge (s : CoordState) (id : String) (mid nm loc : Option String) :
    (add_device s id mid nm loc).last_heartbeat = s.last_heartbeat ∧
    (add_device s id mid nm loc).bridge_online = s.bridge_online := by
  unfold add_device
  cases s.devices.lookup id <;> exact ⟨rfl, rfl⟩

theorem bridgeOnlinePure_mono (s : CoordState) (n n' : Nat) (h : n ≤ n')
    (hp : bridgeOnlinePure s n' = true) : bridgeOnlinePure s n = true := by
  unfold bridgeOnlinePure at hp ⊢
  cases hl : s.last_heartbeat with
  | none => rw [hl] at hp; cases hp
  | some hh =>
    rw [hl] at hp
    have hp' : n' - hh < HEARTBEAT_TIMEOUT := of_decide_eq_true hp
    have hgoal : n - hh < HEARTBEAT_TIMEOUT := by
      unfold HEARTBEAT_TIMEOUT at hp' ⊢
      omega
    exact decide_eq_true hgoal

theorem bridgeOnlinePure_congr (s t : CoordState) (n : Nat)
    (h : s.last_heartbeat = t.last_heartbeat) :
    bridgeOnlinePure s n = bridgeOnlinePure t n := by
  unfold bridgeOnlinePure; rw [h]

theorem reachable_bridge_inv (p : CoordState × Nat) (h : Reachable p) :
    bridgeOnlinePure p.1 p.2 = true → p.1.bridge_online = true := by
  unfold Reachable at h
  induction h with
  | refl =>
    intro hp
    exfalso
    unfold bridgeOnlinePure initState at hp
    simp at hp
  | tail hsteps hstep ih =>
    cases hstep with
    | line s now now' l parse hle =>
      intro hp
      unfold process_line at hp ⊢
      by_cases hbr : strStartsWith l "\x7b" = true
      · rw [if_pos hbr] at hp ⊢
        cases hpa : parse l with
        | error e =>
          rw [hpa] at hp
          have hp' : bridgeOnlinePure s now' = true := hp
          exact ih (bridgeOnlinePure_mono _ _ _ hle hp')
        | ok d =>
          rw [hpa] at hp
          have hp' : bridgeOnlinePure (handle_json_message s now' d).1 now' = true := hp
          show (handle_json_message s now' d).1.bridge_online = true
          obtain ⟨devs, hst⟩ := handle_json_message_state s now' d
          rw [hst] at hp' ⊢
          cases hb : (d.type_ == some "heartbeat" || d.heartbeatKey) with
          | true => exact (applyHeartbeat_hb_true _ now' d hb).2
          | false =>
            have hfields := applyHeartbeat_hb_false
              { s with last_message := some d } now' d hb
            show (applyHeartbeat { s with last_message := some d } now' d).bridge_online = true
            rw [hfields.2]
            apply ih
            apply bridgeOnlinePure_mono s now now' hle
            have hcg : bridgeOnlinePure
                { applyHeartbeat { s with last_message := some d } now' d with devices := devs }
                now' = bridgeOnlinePure s now' := by
              apply bridgeOnlinePure_congr
              show (applyHeartbeat { s with last_message := some d } now' d).last_heartbeat =
                s.last_heartbeat
              rw [hfields.1]
            rw [hcg] at hp'
            exact hp'
      · rw [if_neg hbr] at hp ⊢
        have hp' : bridgeOnlinePure s now' = true := hp
        exact ih (bridgeOnlinePure_mono _ _ _ hle hp')
    | poll s now now' hle =>
      intro hp
      have hlh : (async_update_data s now').last_heartbeat = s.last_heartbeat :=
        poll_preserves_lh s now'
      have hp' : bridgeOnlinePure s now' = true := by
        rw [← bridgeOnlinePure_congr _ s now' hlh]
        exact hp
      unfold async_update_data at hp ⊢
      by_cases hc : (!bridgeOnlinePure s now' && s.bridge_online) = true
      · exfalso
        have hfalse : bridgeOnlinePure s now' = false := by
          rw [Bool.and_eq_true] at hc
          have h1 := hc.1
          cases hb2 : bridgeOnlinePure s now'
          · rfl
          · rw [hb2] at h1; exact absurd h1 (by simp)
        rw [hfalse] at hp'
        cases hp'
      · rw [if_neg hc] at hp ⊢
        exact ih (bridgeOnlinePure_mono _ _ _ hle hp)
    | register s now id mid nm loc =>
      intro hp
      have hb := add_device_bridge s id mid nm loc
      rw [hb.2]
      apply ih
      rw [← bridgeOnlinePure_congr _ s now hb.1]
      exact hp
    | start s now =>
      intro hp
      exact ih hp
    | stop s now =>
      intro hp
      exact ih hp

/-- C1: bridge_online returns false if no heartbeat has ever been
recorded; otherwise it returns true if and only if the elapsed time since
the last recorded heartbeat is strictly less than the 35-second timeout,
i.e. exactly for query times strictly before heartbeat + 35. -/
theorem bridge_online_iff_within_timeout (s : CoordState) (now : Nat) :
    (s.last_heartbeat = none → bridgeOnlinePure s now = false) ∧
    (∀ h, s.last_heartbeat = some h →
      (bridgeOnlinePure s now = true ↔ now < h + HEARTBEAT_TIMEOUT)) := by
  constructor
  · intro hn
    unfold bridgeOnlinePure
    rw [hn]
  · intro h hh
    unfold bridgeOnlinePure
    rw [hh]
    constructor
    · intro hd
      have hlt := of_decide_eq_true hd
      unfold HEARTBEAT_TIMEOUT at hlt ⊢
      omega
    · intro hlt
      apply decide_eq_true
      unfold HEARTBEAT_TIMEOUT at hlt ⊢
      omega

/-- Witness for C1: a query 20 seconds after a heartbeat at 100 is
online; a fresh coordinator with no heartbeat is offline. -/
theorem bridge_online_iff_within_timeout_witness :
    bridgeOnlinePure { initState with last_heartbeat := some 100 } 120 = true ∧
    bridgeOnlinePure initState 0 = false := by
  constructor
  · exact ((bridge_online_iff_within_timeout
      { initState with last_heartbeat := some 100 } 120).2 100 rfl).mpr (by decide)
  · exact (bridge_online_iff_within_timeout initState 0).1 rfl

/-- C4: a line that does not start with a left brace leaves the entire
coordinator state (the device map with every device's fields, the bridge
device, the last-heartbeat timestamp and the cached bridge-online flag)
unchanged, and fires no event: the line is only logged and discarded. -/
theorem non_json_line_is_noop (s : CoordState) (now : Nat) (line : String)
    (parse : String → Except Unit Msg)
    (h : strStartsWith line "\x7b" = false) :
    process_line s now line parse = (s, []) := by
  unfold process_line
  rw [h]
  simp

/-- Witness for C4: the line "hello" is a no-op on a fresh coordinator. -/
theorem non_json_line_is_noop_witness :
    process_line initState 0 "hello" (fun _ => Except.error ()) = (initState, []) :=
  non_json_line_is_noop initState 0 "hello" (fun _ => Except.error ()) (by decide)

/-- C5: a line that starts with a left brace but fails to parse as JSON
leaves the coordinator state unchanged and fires no event; the parse
failure is caught inside the dispatcher (process_line is a total
function, so no exception escapes it). -/
theorem malformed_json_line_is_noop (s : CoordState) (now : Nat) (line : String)
    (parse : String → Except Unit Msg)
    (h1 : strStartsWith line "\x7b" = true)
    (h2 : parse line = Except.error ()) :
    process_line s now line parse = (s, []) := by
  unfold process_line
  rw [h1, h2]
  simp

/-- Witness for C5: a brace-initial line whose parse fails is a no-op. -/
theorem malformed_json_line_is_noop_witness :
    process_line initState 0 "\x7boops" (fun _ => Except.error ()) = (initState, []) :=
  malformed_json_line_is_noop initState 0 "\x7boops" (fun _ => Except.error ())
    (by decide) rfl

/-- C8: async_send_command returns false (without raising: it is a total
function) whenever the serial handle is absent or the coordinator is not
running; otherwise, when the underlying write succeeds, it hands the
command's UTF-8 bytes to the transport and returns true. -/
theorem send_command_contract (s : CoordState) (w : Bool) (cmd : String) :
    ((s.serialPresent = false ∨ s.running = false) →
      async_send_command s w cmd = (false, none)) ∧
    (s.serialPresent = true → s.running = true → w = true →
      async_send_command s w cmd = (true, some (strUtf8 cmd))) := by
  constructor
  · intro h
    unfold async_send_command
    rcases h with h | h <;> rw [h] <;> simp
  · intro h1 h2 h3
    unfold async_send_command
    rw [h1, h2, h3]
    simp

/-- Witness for C8: send("1~") returns false before the transport has
been started and true — writing the bytes 0x31 0x7E — after. -/
theorem send_command_contract_witness :
    async_send_command initState true CMD_TEST_CO = (false, none) ∧
    async_send_command (startOk initState) true CMD_TEST_CO = (true, some [49, 126]) := by
  constructor
  · exact (send_command_contract initState true CMD_TEST_CO).1 (Or.inl rfl)
  · have h := (send_command_contract (startOk initState) true CMD_TEST_CO).2 rfl rfl rfl
    rw [h]
    have : strUtf8 CMD_TEST_CO = [49, 126] := by decide
    rw [this]

/-- Counterexample for C2: the device "D" was marked missing, then a
status message carrying its identifier is processed — its is_online flag
stays false, so processing a message from a device does NOT set its
is_online flag to true. -/
theorem message_does_not_restore_online_cex :
    devOnline (handle_json_message
      (handle_json_message initState 0 (missingMsgFor "D")).1 1 (msgStatusOkFor "D")).1 "D"
      = some false ∧
    ¬ (devOnline (handle_json_message
      (handle_json_message initState 0 (missingMsgFor "D")).1 1 (msgStatusOkFor "D")).1 "D"
      = some true) := by
  constructor
  · decide
  · decide

/-- C2 (amended): processing a message carrying a device's identifier
sets is_online to true only when it creates the device — newly created
devices start online, so a first message whose type is not "missing"
yields an online device; for an already-known device a message leaves
is_online unchanged unless its type is "missing", which alone sets it to
false; and no poll (timeout sweep) changes any mapped device's is_online
flag. -/
theorem device_online_event_driven (s : CoordState) (now : Nat) (m : Msg) (id : String)
    (hid : pyOrS m.deviceId m.device_id = some id) (hne : id ≠ "") :
    (s.devices.lookup id = none →
      devOnline (handle_json_message s now m).1 id =
        some (if effMsgType m = some "missing" then false else true)) ∧
    (∀ dev, s.devices.lookup id = some dev →
      devOnline (handle_json_message s now m).1 id =
        some (if effMsgType m = some "missing" then false else dev.is_online)) ∧
    (∀ t n k, devOnline (async_update_data t n) k = devOnline t k) := by
  refine ⟨?_, ?_, ?_⟩
  · intro hnone
    rw [handle_devOnline s now m id hid hne]
    simp only [hnone]
  · intro dev hdev
    rw [handle_devOnline s now m id hid hne]
    simp only [hdev]
  · exact fun t n k => poll_preserves_devOnline t n k

/-- Witness for the amended C2: a first status message creates device
"W" online; with the device known and offline, a second status message
leaves it offline; the poll does not touch it. -/
theorem device_online_event_driven_witness :
    devOnline (handle_json_message initState 0 (msgStatusOkFor "W")).1 "W" = some true ∧
    devOnline (handle_json_message
      (handle_json_message initState 0 (missingMsgFor "W")).1 1 (msgStatusOkFor "W")).1 "W"
      = some false := by
  constructor
  · have h := (device_online_event_driven initState 0 (msgStatusOkFor "W") "W"
      rfl (by decide)).1 rfl
    rw [h]
    decide
  · have hdev : (handle_json_message initState 0 (missingMsgFor "W")).1.devices.lookup "W" =
        some { device_id := "W", model_id := none, name := none, location := none
             , device_type := none, last_seen := some 0, battery_status := "unknown"
             , base_status := "unknown", last_event := none, last_test_result := none
             , is_online := false } := by decide
    have h := (device_online_event_driven
      (handle_json_message initState 0 (missingMsgFor "W")).1 1 (msgStatusOkFor "W") "W"
      rfl (by decide)).2.1 _ hdev
    rw [h]
    decide

/-- C6: from a state with no device D1, the status message with model_id
1103, battery low and base removed creates D1 with name "WST-630" and
category "combined" from the static model table, records battery_status
"low" and base_status "removed", and the problem predicate of the
resulting device evaluates true. -/
theorem status_message_creates_problem_device (s : CoordState) (now : Nat)
    (h : s.devices.lookup "D1" = none) :
    (handle_json_message s now msgC6).1.devices.lookup "D1" = some (devC6 now) ∧
    (devC6 now).name = some "WST-630" ∧
    (devC6 now).device_type = some "combined" ∧
    (devC6 now).battery_status = "low" ∧
    (devC6 now).base_status = "removed" ∧
    problemOn (devC6 now) = true := by
  refine ⟨?_, rfl, rfl, rfl, rfl, ?_⟩
  · rw [(handle_json_message_devices s now msgC6 "D1" rfl (by decide)).1]
    have hda : (deviceAfter s.devices now msgC6 "D1").1 = devC6 now := by
      unfold deviceAfter
      rw [h]
      rfl
    rw [hda]
    exact insertDev_lookup_self _ _ _
  · rfl

/-- Witness for C6: the scenario on a fresh coordinator at time 5. -/
theorem status_message_creates_problem_device_witness :
    (handle_json_message initState 5 msgC6).1.devices.lookup "D1" = some (devC6 5) ∧
    problemOn (devC6 5) = true := by
  have h := status_message_creates_problem_device initState 5 rfl
  exact ⟨h.1, h.2.2.2.2.2⟩

/-- C10: every freshly constructed device starts with is_online true,
battery_status and base_status "unknown", and last_event and
last_test_result unset; hence a device whose first observed message is a
"missing" message is created online and then marked offline by that same
message, and after a restart (a state that has forgotten the device) any
non-missing first message recreates it online. -/
theorem new_device_starts_online (id : String) (mid : Option String)
    (s : CoordState) (now : Nat) (hnone : s.devices.lookup id = none) (hne : id ≠ "") :
    ((Device.init id mid).is_online = true ∧
     (Device.init id mid).battery_status = "unknown" ∧
     (Device.init id mid).base_status = "unknown" ∧
     (Device.init id mid).last_event = none ∧
     (Device.init id mid).last_test_result = none) ∧
    devOnline (handle_json_message s now (missingMsgFor id)).1 id = some false ∧
    (∀ m, pyOrS m.deviceId m.device_id = some id → effMsgType m ≠ some "missing" →
      devOnline (handle_json_message s now m).1 id = some true) := by
  refine ⟨Device.init_defaults id mid, ?_, ?_⟩
  · rw [handle_devOnline s now (missingMsgFor id) id rfl hne]
    have heff : effMsgType (missingMsgFor id) = some "missing" := rfl
    rw [heff]
    simp
  · intro m hid hm
    rw [handle_devOnline s now m id hid hne]
    simp only [hnone, if_neg hm]

/-- Witness for C10: on a fresh coordinator, a first "missing" message
creates device N offline; a first status message creates it online. -/
theorem new_device_starts_online_witness :
    devOnline (handle_json_message initState 0 (missingMsgFor "N")).1 "N" = some false ∧
    devOnline (handle_json_message initState 0 (msgStatusOkFor "N")).1 "N" = some true := by
  have h := new_device_starts_online "N" none initState 0 rfl (by decide)
  exact ⟨h.2.1, h.2.2 (msgStatusOkFor "N") rfl (by decide)⟩

/-- C3: for a previously online device, the missing message sets
is_online to false and fires exactly one device-missing notification
carrying the device id and name; no poll ever changes a mapped device's
online flag, and any step that would turn the flag back to true can only
be the processing of a non-missing message carrying that device's id. -/
theorem missing_message_marks_offline (s : CoordState) (now : Nat) (id : String)
    (dev : Device) (hne : id ≠ "") (hdev : s.devices.lookup id = some dev)
    (hon : dev.is_online = true) (hwf : dev.device_id = id) :
    devOnline (handle_json_message s now (missingMsgFor id)).1 id = some false ∧
    (handle_json_message s now (missingMsgFor id)).2 = [Fired.deviceMissing id dev.name] ∧
    (∀ t n, devOnline (async_update_data t n) id = devOnline t id) ∧
    (∀ t n m, devOnline t id = some false →
      devOnline (handle_json_message t n m).1 id = some true →
      pyOrS m.deviceId m.device_id = some id ∧ effMsgType m ≠ some "missing") := by
  refine ⟨?_, ?_, ?_, ?_⟩
  · rw [handle_devOnline s now (missingMsgFor id) id rfl hne]
    have heff : effMsgType (missingMsgFor id) = some "missing" := rfl
    rw [heff]
    simp
  · rw [(handle_json_message_devices s now (missingMsgFor id) id rfl hne).2]
    rw [deviceAfter_snd_of_eff s.devices now (missingMsgFor id) id "missing" rfl]
    simp only [hdev]
    rw [handle_device_event_missing]
    show [Fired.deviceMissing (dev.update_from_message now (missingMsgFor id)).device_id
            (dev.update_from_message now (missingMsgFor id)).name]
        = [Fired.deviceMissing id dev.name]
    have hf := update_from_message_fields dev now (missingMsgFor id)
    rw [hf.2.1, hf.2.2.1, hwf]
  · exact fun t n => poll_preserves_devOnline t n id
  · intro t n m hoff htrue
    cases hv : pyOrS m.deviceId m.device_id with
    | none =>
      exfalso
      have hun := (handle_json_message_devices_untouched t n m (Or.inl hv)).1
      unfold devOnline at htrue hoff
      rw [hun, hoff] at htrue
      simp at htrue
    | some k =>
      by_cases hk0 : k = ""
      · exfalso
        subst hk0
        have hun := (handle_json_message_devices_untouched t n m (Or.inr hv)).1
        unfold devOnline at htrue hoff
        rw [hun, hoff] at htrue
        simp at htrue
      · by_cases hkid : k = id
        · subst hkid
          refine ⟨rfl, ?_⟩
          intro heffm
          rw [handle_devOnline t n m k hv hk0] at htrue
          rw [heffm] at htrue
          simp at htrue
        · exfalso
          have hne2 : id ≠ k := fun hh => hkid hh.symm
          rw [handle_devOnline_ne t n m k id hv hk0 hne2] at htrue
          rw [hoff] at htrue
          simp at htrue

/-- Witness for C3: device M goes online via a status message, then the
missing message marks it offline and fires the single notification. -/
theorem missing_message_marks_offline_witness :
    devOnline (handle_json_message
      (handle_json_message initState 0 (msgStatusOkFor "M")).1 1 (missingMsgFor "M")).1 "M"
      = some false ∧
    (handle_json_message
      (handle_json_message initState 0 (msgStatusOkFor "M")).1 1 (missingMsgFor "M")).2
      = [Fired.deviceMissing "M" none] := by
  have hdev : (handle_json_message initState 0 (msgStatusOkFor "M")).1.devices.lookup "M"
      = some { device_id := "M", model_id := none, name := none, location := none
             , device_type := none, last_seen := some 0, battery_status := "ok"
             , base_status := "unknown", last_event := none, last_test_result := none
             , is_online := true } := by decide
  have h := missing_message_marks_offline
    (handle_json_message initState 0 (msgStatusOkFor "M")).1 1 "M" _ (by decide) hdev rfl rfl
  exact ⟨h.1, h.2.1⟩

theorem emergency_step (s : CoordState) (now : Nat) (id : String) (m : Msg)
    (hne : id ≠ "") (hid : pyOrS m.deviceId m.device_id = some id)
    (ht : effMsgType m = some "emergency") (he : m.event_type = some "FIRE")
    (hwf : ∀ d, s.devices.lookup id = some d → d.device_id = id) :
    devLastEvent (handle_json_message s now m).1 id = some (some "EMERGENCY: FIRE") ∧
    (∃ nm loc, (handle_json_message s now m).2 = [Fired.emergency id "FIRE" nm loc] ∧
      devName (handle_json_message s now m).1 id = some nm ∧
      devLocation (handle_json_message s now m).1 id = some loc) ∧
    (∀ d, (handle_json_message s now m).1.devices.lookup id = some d → d.device_id = id) := by
  have hdevs := handle_json_message_devices s now m id hid hne
  have heq := deviceAfter_snd_of_eff s.devices now m id "emergency" ht
  rw [handle_device_event_emergency] at heq
  have hget : m.event_type.getD "unknown" = "FIRE" := by rw [he]; rfl
  rw [hget] at heq
  have happ : "EMERGENCY: " ++ "FIRE" = "EMERGENCY: FIRE" := rfl
  rw [happ] at heq
  have hlook : (handle_json_message s now m).1.devices.lookup id
      = some (deviceAfter s.devices now m id).1 := by
    rw [hdevs.1]; exact insertDev_lookup_self _ _ _
  have hdev_id : (deviceAfter s.devices now m id).1.device_id = id := by
    rw [deviceAfter_device_id]
    cases hl : s.devices.lookup id with
    | some d => exact hwf d hl
    | none => rfl
  refine ⟨?_,
    ⟨(deviceAfter s.devices now m id).1.name,
     (deviceAfter s.devices now m id).1.location, ?_, ?_, ?_⟩, ?_⟩
  · unfold devLastEvent
    rw [hlook, Option.map_some', heq]
  · rw [hdevs.2]
    have hd1 := hdev_id
    rw [heq] at hd1 ⊢
    rw [hd1]
  · unfold devName
    rw [hlook, Option.map_some']
  · unfold devLocation
    rw [hlook, Option.map_some']
  · intro d hd
    rw [hlook] at hd
    injection hd with hd
    rw [← hd]
    exact hdev_id

/-- C7: two consecutive emergency messages with event_type FIRE for the
same device each leave last_event at "EMERGENCY: FIRE" and each fire
exactly one emergency notification carrying the device id, the event
type, and the device's name and location. -/
theorem consecutive_fire_emergencies (s : CoordState) (now1 now2 : Nat) (id : String)
    (m1 m2 : Msg) (hne : id ≠ "")
    (h1id : pyOrS m1.deviceId m1.device_id = some id)
    (h1t : effMsgType m1 = some "emergency") (h1e : m1.event_type = some "FIRE")
    (h2id : pyOrS m2.deviceId m2.device_id = some id)
    (h2t : effMsgType m2 = some "emergency") (h2e : m2.event_type = some "FIRE")
    (hwf : ∀ d, s.devices.lookup id = some d → d.device_id = id) :
    devLastEvent (handle_json_message s now1 m1).1 id = some (some "EMERGENCY: FIRE") ∧
    (∃ nm loc, (handle_json_message s now1 m1).2 = [Fired.emergency id "FIRE" nm loc] ∧
      devName (handle_json_message s now1 m1).1 id = some nm ∧
      devLocation (handle_json_message s now1 m1).1 id = some loc) ∧
    devLastEvent (handle_json_message (handle_json_message s now1 m1).1 now2 m2).1 id
      = some (some "EMERGENCY: FIRE") ∧
    (∃ nm loc,
      (handle_json_message (handle_json_message s now1 m1).1 now2 m2).2
        = [Fired.emergency id "FIRE" nm loc] ∧
      devName (handle_json_message (handle_json_message s now1 m1).1 now2 m2).1 id
        = some nm ∧
      devLocation (handle_json_message (handle_json_message s now1 m1).1 now2 m2).1 id
        = some loc) := by
  have h1 := emergency_step s now1 id m1 hne h1id h1t h1e hwf
  have h2 := emergency_step (handle_json_message s now1 m1).1 now2 id m2
    hne h2id h2t h2e h1.2.2
  exact ⟨h1.1, h1.2.1, h2.1, h2.2.1⟩

/-- Witness for C7: two FIRE emergencies for device E on a fresh
coordinator. -/
theorem consecutive_fire_emergencies_witness :
    devLastEvent (handle_json_message initState 0 (msgEmergencyFor "E" "FIRE")).1 "E"
      = some (some "EMERGENCY: FIRE") ∧
    devLastEvent (handle_json_message
      (handle_json_message initState 0 (msgEmergencyFor "E" "FIRE")).1 1
      (msgEmergencyFor "E" "FIRE")).1 "E"
      = some (some "EMERGENCY: FIRE") := by
  have h := consecutive_fire_emergencies initState 0 1 "E"
    (msgEmergencyFor "E" "FIRE") (msgEmergencyFor "E" "FIRE")
    (by decide) rfl rfl rfl rfl rfl rfl (fun d hd => by simp [initState] at hd)
  exact ⟨h.1, h.2.2.1⟩

/-- C9: in every reachable state the cached bridge-online field is a
mirror of the pure liveness function — the pure value true forces the
cached flag true; after a poll the cached flag equals the pure function
at poll time; and a heartbeat sets the cached flag exactly when the pure
function is true at that instant. -/
theorem bridge_cached_mirrors_pure (s : CoordState) (now : Nat)
    (h : Reachable (s, now)) (now' : Nat) (hle : now ≤ now') :
    (bridgeOnlinePure s now = true → s.bridge_online = true) ∧
    ((async_update_data s now').bridge_online
        = bridgeOnlinePure (async_update_data s now') now') ∧
    (∀ m, (m.type_ == some "heartbeat" || m.heartbeatKey) = true →
      (handle_json_message s now' m).1.bridge_online = true ∧
      bridgeOnlinePure (handle_json_message s now' m).1 now' = true) := by
  refine ⟨reachable_bridge_inv (s, now) h, ?_, ?_⟩
  · have hlh := poll_preserves_lh s now'
    have hcg := bridgeOnlinePure_congr (async_update_data s now') s now' hlh
    rw [hcg]
    unfold async_update_data
    cases hp : bridgeOnlinePure s now' with
    | true =>
      have hcached : s.bridge_online = true :=
        reachable_bridge_inv (s, now) h (bridgeOnlinePure_mono s now now' hle hp)
      simp [hcached]
    | false =>
      cases hc : s.bridge_online with
      | true => simp [hc]
      | false => simp [hc]
  · intro m hb
    obtain ⟨devs, hst⟩ := handle_json_message_state s now' m
    rw [hst]
    have h1 := applyHeartbeat_hb_true { s with last_message := some m } now' m hb
    constructor
    · exact h1.2
    · have hlh2 : ({ applyHeartbeat { s with last_message := some m } now' m with
          devices := devs } : CoordState).last_heartbeat = some now' := h1.1
      unfold bridgeOnlinePure
      rw [hlh2]
      apply decide_eq_true
      unfold HEARTBEAT_TIMEOUT
      omega

/-- Witness for C9: on the freshly constructed coordinator (reachable by
the empty trace) the poll at time 0 leaves the cached flag equal to the
pure function, and a heartbeat raises both. -/
theorem bridge_cached_mirrors_pure_witness :
    (async_update_data initState 0).bridge_online
      = bridgeOnlinePure (async_update_data initState 0) 0 :=
  (bridge_cached_mirrors_pure initState 0
    (by unfold Reachable; exact Relation.ReflTransGen.refl) 0 (Nat.le_refl 0)).2.1

end WiSafe2
